import Mathlib

/-!
Shallow embedding of `src/main.py` (mia voice-assistant widget).

The recording machinery of `SpeechRecognizer` is modelled as a state
machine.  Python threads are modelled by interleaving events:

* `Event.toggle` — the record button fires `toggle_recording` on the UI
  thread;
* `Event.calibDone r` — the background thread spawned by
  `_start_recording` finishes `_calibrate_and_start`: it assigns
  `self.stop_listening = recognizer.listen_in_background(...)` (a fresh
  live listener) and defers the greeting tooltip via `root.after`
  (`r` models the `random.choice` draw);
* `Event.audio res r` — the background listener invokes `_process_audio`
  with recognition outcome `res` on the listener thread.

Side effects are logged in the state: UI effects carry the thread that
produced them and whether they were dispatched directly or deferred via
`root.after`; clipboard writes (`ClipboardManager.set_clipboard_text`
calls) and listener cancellations (`self.stop_listening(wait_for_stop=...)`
calls) are logged as lists.
-/

/-- Icons of the record button (`mic_icon` / `stop_icon` in `UserInterface`). -/
inductive Icon
  | micIcon
  | stopIcon
deriving DecidableEq

/-- Threads of the program: the tkinter mainloop thread, the calibration
thread spawned by `_start_recording`, and the background-listener callback
thread of `listen_in_background`. -/
inductive Thread
  | uiThread
  | calibThread
  | listenerThread
deriving DecidableEq

/-- How a UI-visible effect reaches the widgets: a direct widget call, or a
closure enqueued on the UI task queue via `root.after`. -/
inductive Dispatch
  | direct
  | deferred
deriving DecidableEq

/-- A UI-visible effect: a record-button icon swap
(`record_button.config(image=...)`) or a tooltip (`show_tooltip(msg, duration)`). -/
inductive EffectKind
  | iconSwap (i : Icon)
  | tooltip (msg : String) (duration : Nat)
deriving DecidableEq

/-- A logged UI effect together with the thread that produced it and the
dispatch mechanism used. -/
structure UIEffect where
  kind : EffectKind
  source : Thread
  dispatch : Dispatch
deriving DecidableEq

/-- `MessageProvider.GREETING_MESSAGES` from the source. -/
def GREETING_MESSAGES : List String :=
  ["¿Dime?", "Te escucho", "¿Qué necesitas?", "Cuéntame", "Soy toda oídos",
   "A tus órdenes", "Dime lo que necesitas", "Habla con confianza", "Estoy atenta"]

/-- `MessageProvider.ACKNOWLEDGMENT_MESSAGES` from the source. -/
def ACKNOWLEDGMENT_MESSAGES : List String :=
  ["Entendido", "Ok, lo tengo", "Claro que sí", "Por supuesto", "Recibido",
   "Comprendido", "Anotado"]

/-- `MessageProvider.get_random_message`: `random.choice(message_list)`, with the
random draw made explicit as an index `r`. -/
def get_random_message (message_list : List String) (r : Nat) : String :=
  message_list.getD (r % message_list.length) ""

/-- Tooltip text of the `sr.UnknownValueError` branch of `_process_audio`. -/
def UNKNOWN_VALUE_MSG : String := "Sorry, I couldn\x27t understand you. Could you repeat that?"

/-- Tooltip text of the `sr.RequestError` branch of `_process_audio`. -/
def REQUEST_ERROR_MSG : String := "Sorry, I\x27m having a connection problem. Please try again."

/-- State of `SpeechRecognizer` plus the logged side effects of the run.
`pendingCalib` counts spawned `_calibrate_and_start` threads that have not yet
run; `liveListeners` holds the identities of background listeners created by
`listen_in_background` and not yet cancelled; `nextListenerId` supplies fresh
identities.  `clipboardWrites` logs the arguments of every
`set_clipboard_text` call, `cancellations` logs every `stop_listening(...)`
call as (listener id, wait_for_stop flag). -/
structure RecState where
  is_recording : Bool
  stop_listening : Option Nat
  recognized_text : String
  pendingCalib : Nat
  nextListenerId : Nat
  liveListeners : List Nat
  clipboardWrites : List String
  cancellations : List (Nat × Bool)
  effects : List UIEffect
deriving DecidableEq

/-- The state right after `SpeechRecognizer.__init__`. -/
def initState : RecState :=
  { is_recording := false
    stop_listening := none
    recognized_text := ""
    pendingCalib := 0
    nextListenerId := 0
    liveListeners := []
    clipboardWrites := []
    cancellations := []
    effects := [] }

/-- Append a UI effect to the log. -/
def emit (s : RecState) (e : UIEffect) : RecState :=
  { s with effects := s.effects ++ [e] }

/-- `ClipboardManager.set_clipboard_text(text)`: the write is logged; its
win32 success or failure is swallowed by the source and not modelled. -/
def set_clipboard_text (s : RecState) (text : String) : RecState :=
  { s with clipboardWrites := s.clipboardWrites ++ [text] }

/-- `SpeechRecognizer._start_recording` (always called on the UI thread via
the button command): clears `recognized_text`, spawns the calibration thread,
swaps the button icon directly, sets `is_recording`. -/
def start_recording (s : RecState) : RecState :=
  let s1 := { s with recognized_text := "" }
  let s2 := { s1 with pendingCalib := s1.pendingCalib + 1 }
  let s3 := emit s2 ⟨EffectKind.iconSwap Icon.stopIcon, Thread.uiThread, Dispatch.direct⟩
  { s3 with is_recording := true }

/-- `SpeechRecognizer._stop_recording`, parameterised by the calling thread
(the UI thread via `toggle_recording`, or the listener thread via
`_process_audio`): if a handle exists, calls it with `wait_for_stop=False`
(cancelling that listener) and clears it; swaps the icon directly; clears
`is_recording`. -/
def stop_recording (s : RecState) (t : Thread) : RecState :=
  let s1 := match s.stop_listening with
    | some l =>
        { s with liveListeners := s.liveListeners.erase l
                 cancellations := s.cancellations ++ [(l, false)]
                 stop_listening := none }
    | none => s
  let s2 := emit s1 ⟨EffectKind.iconSwap Icon.micIcon, t, Dispatch.direct⟩
  { s2 with is_recording := false }

/-- `SpeechRecognizer.toggle_recording` (UI thread). -/
def toggle_recording (s : RecState) : RecState :=
  if s.is_recording then stop_recording s Thread.uiThread else start_recording s

/-- Body of `SpeechRecognizer._calibrate_and_start` after the blocking
calibration: `listen_in_background` creates a fresh live listener and its
handle is stored in `stop_listening`; the greeting tooltip is deferred to the
UI thread via `root.after`. -/
def calibrate_and_start (s : RecState) (r : Nat) : RecState :=
  let l := s.nextListenerId
  let s1 := { s with liveListeners := l :: s.liveListeners
                     stop_listening := some l
                     nextListenerId := l + 1 }
  emit s1 ⟨EffectKind.tooltip (get_random_message GREETING_MESSAGES r) 1500,
           Thread.calibThread, Dispatch.deferred⟩

/-- Outcome of `recognizer.recognize_google(audio, language="es-ES")` inside
`_process_audio`. -/
inductive RecogResult
  | text (t : String)
  | unknownValueError
  | requestError (e : String)
deriving DecidableEq

/-- `SpeechRecognizer._process_audio` (runs on the listener thread): on a
truthy recognised text, appends it plus a space to `recognized_text`, shows an
acknowledgment tooltip directly, writes the bare text to the clipboard and
calls `_stop_recording`; on `UnknownValueError` shows a retry tooltip directly
and writes the empty string; on `RequestError` only shows a connection tooltip
directly. -/
def process_audio (s : RecState) (res : RecogResult) (r : Nat) : RecState :=
  match res with
  | RecogResult.text t =>
      if t = "" then s
      else
        let s1 := { s with recognized_text := s.recognized_text ++ t ++ " " }
        let s2 := emit s1 ⟨EffectKind.tooltip (get_random_message ACKNOWLEDGMENT_MESSAGES r) 1500,
                           Thread.listenerThread, Dispatch.direct⟩
        let s3 := set_clipboard_text s2 t
        stop_recording s3 Thread.listenerThread
  | RecogResult.unknownValueError =>
      let s1 := emit s ⟨EffectKind.tooltip UNKNOWN_VALUE_MSG 2000,
                        Thread.listenerThread, Dispatch.direct⟩
      set_clipboard_text s1 ""
  | RecogResult.requestError _ =>
      emit s ⟨EffectKind.tooltip REQUEST_ERROR_MSG 3000,
              Thread.listenerThread, Dispatch.direct⟩

/-- System events: a button toggle on the UI thread, the completion of a
pending calibration thread, and a listener callback.  A calibration
completion without a pending thread and an audio callback without a live
listener cannot occur and are no-ops. -/
inductive Event
  | toggle
  | calibDone (r : Nat)
  | audio (res : RecogResult) (r : Nat)
deriving DecidableEq

/-- One interleaving step of the system. -/
def step (s : RecState) : Event → RecState
  | Event.toggle => toggle_recording s
  | Event.calibDone r =>
      if 0 < s.pendingCalib
      then calibrate_and_start { s with pendingCalib := s.pendingCalib - 1 } r
      else s
  | Event.audio res r =>
      if s.liveListeners = [] then s else process_audio s res r

/-- Run a sequence of interleaved events. -/
def run (s : RecState) (evs : List Event) : RecState :=
  evs.foldl step s

/-- Guard on one event for the calibration-discipline restriction: a toggle is
only taken while no calibration thread is pending. -/
def safeEvent (s : RecState) (e : Event) : Bool :=
  match e with
  | Event.toggle => s.pendingCalib == 0
  | _ => true

/-- An event sequence respects the calibration discipline when every toggle in
it happens in a state with no pending calibration thread. -/
def safeEvents : RecState → List Event → Bool
  | _, [] => true
  | s, e :: es => safeEvent s e && safeEvents (step s e) es

/-- Geometry inputs of `UserInterface._position_tooltip`: the `winfo` readings
used by the source.  Python ints are modelled as `Int`. -/
structure TooltipGeom where
  tooltip_width : Int
  tooltip_height : Int
  root_x : Int
  root_y : Int
  frame_x : Int
  frame_y : Int
  btn_x : Int
  btn_y : Int
  button_width : Int
  screen_width : Int
  screen_height : Int

/-- `UserInterface._position_tooltip`: centers the tooltip horizontally over
the button, places it 5 pixels above, then applies the two lower clamps of the
source (`if x < 10: x = 10`, `if y < 10: y = 10`).  Python floor division `//`
is `Int.fdiv`.  The returned pair is the `+x+y` geometry applied to the
tooltip. -/
def position_tooltip (g : TooltipGeom) : Int × Int :=
  let button_x := g.root_x + g.frame_x + g.btn_x
  let button_y := g.root_y + g.frame_y + g.btn_y
  let x0 := button_x + Int.fdiv g.button_width 2 - Int.fdiv g.tooltip_width 2
  let y0 := button_y - g.tooltip_height - 5
  let x1 := if x0 < 10 then 10 else x0
  let y1 := if y0 < 10 then 10 else y0
  (x1, y1)

/-- Colors used by `UserInterface._create_fallback_icons`. -/
inductive Color
  | green
  | red
deriving DecidableEq

/-- The circle test `(x - 50) ** 2 + (y - 50) ** 2 <= 40 ** 2` of
`_create_fallback_icons`. -/
def in_circle (x y : Nat) : Bool :=
  ((x : Int) - 50) ^ 2 + ((y : Int) - 50) ^ 2 ≤ 40 ^ 2

/-- A generated `tk.PhotoImage` of `_create_fallback_icons`: a 100 by 100
canvas whose painted pixels are given by `pixel` (queried at coordinates below
`width` and `height`). -/
structure GeneratedIcon where
  width : Nat
  height : Nat
  pixel : Nat → Nat → Option Color

/-- `UserInterface._create_fallback_icons`: a green circle for the microphone
icon and a red circle for the stop icon, both on 100 by 100 canvases. -/
def create_fallback_icons : GeneratedIcon × GeneratedIcon :=
  (⟨100, 100, fun x y => if in_circle x y then some Color.green else none⟩,
   ⟨100, 100, fun x y => if in_circle x y then some Color.red else none⟩)

/-- Result of `UserInterface._load_and_resize_image` on one asset file, an
external PIL / ImageTk call: either a loaded image or an exception. -/
structure LoadedImage where
  width : Nat
  height : Nat

/-- The icon pair held by the interface: either both assets loaded from disk,
or the generated fallback pair. -/
inductive IconSet
  | loaded (mic_icon stop_icon : LoadedImage)
  | generated (icons : GeneratedIcon × GeneratedIcon)

/-- `UserInterface._load_icons`: tries to load both asset files inside one
`try`; an exception from either load reaches the `except` branch, which
returns `_create_fallback_icons()`. -/
def load_icons (listen_result stop_result : Except String LoadedImage) : IconSet :=
  match listen_result, stop_result with
  | Except.ok m, Except.ok s => IconSet.loaded m s
  | Except.error _, _ => IconSet.generated create_fallback_icons
  | _, Except.error _ => IconSet.generated create_fallback_icons

/-- Model of `os.path.join(base, p)` for a single component (posixpath
semantics: an absolute second component discards the base; otherwise the
separator is inserted unless already present). -/
def ospath_join (base p : String) : String :=
  if p.startsWith ("/") then p
  else if base = "" then p
  else if base.endsWith ("/") then base ++ p
  else base ++ "/" ++ p

/-- Body of the `try` block of `ResourceManager.get_resource_path`:
`getattr(sys, "_MEIPASS", os.path.dirname(os.path.abspath(__file__)))` is
`Option.getD` (it cannot raise), and `os.path.join` on strings is total, so
the body always returns normally. -/
def try_get_resource_path (meipass : Option String) (script_dir relative_path : String) :
    Except String String :=
  let base_path := meipass.getD script_dir
  Except.ok (ospath_join base_path relative_path)

/-- `ResourceManager.get_resource_path`, including the `except` handler that
would return the bare `relative_path`. -/
def get_resource_path (meipass : Option String) (script_dir relative_path : String) : String :=
  match try_get_resource_path meipass script_dir relative_path with
  | Except.ok p => p
  | Except.error _ => relative_path

/-- The text of the scenario in the spec and in claim C3. -/
def HOLA_MUNDO : String := "hola mundo"

/-- The same text with the trailing space that `_process_audio` appends to
`recognized_text`. -/
def HOLA_MUNDO_SPACE : String := "hola mundo "

/-- `random.choice` always returns an element of a non-empty list. -/
theorem get_random_message_mem (l : List String) (r : Nat) (h : l ≠ []) :
    get_random_message l r ∈ l := by
  have hlt : r % l.length < l.length := Nat.mod_lt _ (List.length_pos.mpr h)
  unfold get_random_message
  rw [List.getD_eq_getElem?_getD, List.getElem?_eq_getElem hlt]
  exact List.getElem_mem hlt

/-- Characterization of `_start_recording` as a single state update. -/
theorem start_recording_eq (s : RecState) :
    start_recording s =
      { s with recognized_text := ""
               pendingCalib := s.pendingCalib + 1
               is_recording := true
               effects := s.effects ++
                 [⟨EffectKind.iconSwap Icon.stopIcon, Thread.uiThread, Dispatch.direct⟩] } := rfl

/-- Characterization of `_stop_recording` when no listener handle exists. -/
theorem stop_recording_none_eq (s : RecState) (t : Thread) (hsl : s.stop_listening = none) :
    stop_recording s t =
      { s with is_recording := false
               effects := s.effects ++
                 [⟨EffectKind.iconSwap Icon.micIcon, t, Dispatch.direct⟩] } := by
  simp [stop_recording, emit, hsl]

/-- Characterization of `_stop_recording` when a listener handle exists. -/
theorem stop_recording_some_eq (s : RecState) (t : Thread) (l : Nat)
    (hsl : s.stop_listening = some l) :
    stop_recording s t =
      { s with is_recording := false
               stop_listening := none
               liveListeners := s.liveListeners.erase l
               cancellations := s.cancellations ++ [(l, false)]
               effects := s.effects ++
                 [⟨EffectKind.iconSwap Icon.micIcon, t, Dispatch.direct⟩] } := by
  simp [stop_recording, emit, hsl]

/-- Characterization of the post-calibration body of `_calibrate_and_start`. -/
theorem calibrate_and_start_eq (s : RecState) (r : Nat) :
    calibrate_and_start s r =
      { s with liveListeners := s.nextListenerId :: s.liveListeners
               stop_listening := some s.nextListenerId
               nextListenerId := s.nextListenerId + 1
               effects := s.effects ++
                 [⟨EffectKind.tooltip (get_random_message GREETING_MESSAGES r) 1500,
                   Thread.calibThread, Dispatch.deferred⟩] } := rfl

/-- Characterization of the `UnknownValueError` branch of `_process_audio`. -/
theorem process_audio_unknown_eq (s : RecState) (r : Nat) :
    process_audio s RecogResult.unknownValueError r =
      { s with clipboardWrites := s.clipboardWrites ++ [""]
               effects := s.effects ++
                 [⟨EffectKind.tooltip UNKNOWN_VALUE_MSG 2000, Thread.listenerThread,
                   Dispatch.direct⟩] } := rfl

/-- Characterization of the `RequestError` branch of `_process_audio`. -/
theorem process_audio_request_error_eq (s : RecState) (r : Nat) (e : String) :
    process_audio s (RecogResult.requestError e) r =
      { s with effects := s.effects ++
                 [⟨EffectKind.tooltip REQUEST_ERROR_MSG 3000, Thread.listenerThread,
                   Dispatch.direct⟩] } := rfl

/-- Characterization of the success branch of `_process_audio` on a truthy
recognised text: the text plus a trailing space is appended to
`recognized_text`, the bare text is written to the clipboard, an
acknowledgment tooltip and the icon swap of `_stop_recording` are produced
directly on the listener thread, and the session disarms. -/
theorem process_audio_success (s : RecState) (t : String) (r : Nat) (ht : ¬ t = "") :
    process_audio s (RecogResult.text t) r =
      { s with
        recognized_text := s.recognized_text ++ t ++ " "
        clipboardWrites := s.clipboardWrites ++ [t]
        is_recording := false
        stop_listening := none
        liveListeners :=
          match s.stop_listening with
          | some l => s.liveListeners.erase l
          | none => s.liveListeners
        cancellations :=
          match s.stop_listening with
          | some l => s.cancellations ++ [(l, false)]
          | none => s.cancellations
        effects := s.effects ++
          [⟨EffectKind.tooltip (get_random_message ACKNOWLEDGMENT_MESSAGES r) 1500,
            Thread.listenerThread, Dispatch.direct⟩,
           ⟨EffectKind.iconSwap Icon.micIcon, Thread.listenerThread, Dispatch.direct⟩] } := by
  cases hsl : s.stop_listening with
  | none => simp [process_audio, ht, emit, set_clipboard_text, stop_recording, hsl]
  | some l => simp [process_audio, ht, emit, set_clipboard_text, stop_recording, hsl]

/-- Claim C5: from an idle state, `toggle_recording` arms the session and
clears the accumulated recognized text. -/
theorem C5_toggle_from_idle (s : RecState) (h : s.is_recording = false) :
    (toggle_recording s).is_recording = true ∧ (toggle_recording s).recognized_text = "" := by
  simp [toggle_recording, h, start_recording, emit]

/-- Witness for C5 at the initial state. -/
theorem C5_witness :
    initState.is_recording = false ∧
    ((toggle_recording initState).is_recording = true ∧
      (toggle_recording initState).recognized_text = "") :=
  ⟨rfl, C5_toggle_from_idle initState rfl⟩

/-- Claim C6: from an armed state, `toggle_recording` disarms the session,
invokes the listener cancellation with `wait_for_stop=False` exactly when a
handle exists, and clears the handle to `None`. -/
theorem C6_toggle_from_armed (s : RecState) (h : s.is_recording = true) :
    (toggle_recording s).is_recording = false ∧
    (toggle_recording s).stop_listening = none ∧
    (∀ l, s.stop_listening = some l →
      (toggle_recording s).cancellations = s.cancellations ++ [(l, false)]) ∧
    (s.stop_listening = none → (toggle_recording s).cancellations = s.cancellations) := by
  cases hsl : s.stop_listening with
  | none => simp [toggle_recording, h, stop_recording, hsl, emit]
  | some l => simp [toggle_recording, h, stop_recording, hsl, emit]

/-- Witness for C6 at a concrete armed state holding a listener handle. -/
theorem C6_witness :
    (run initState [Event.toggle, Event.calibDone 0]).is_recording = true ∧
    ((toggle_recording (run initState [Event.toggle, Event.calibDone 0])).is_recording = false ∧
      (toggle_recording (run initState [Event.toggle, Event.calibDone 0])).stop_listening = none ∧
      (∀ l, (run initState [Event.toggle, Event.calibDone 0]).stop_listening = some l →
        (toggle_recording (run initState [Event.toggle, Event.calibDone 0])).cancellations =
          (run initState [Event.toggle, Event.calibDone 0]).cancellations ++ [(l, false)]) ∧
      ((run initState [Event.toggle, Event.calibDone 0]).stop_listening = none →
        (toggle_recording (run initState [Event.toggle, Event.calibDone 0])).cancellations =
          (run initState [Event.toggle, Event.calibDone 0]).cancellations)) :=
  ⟨by decide, C6_toggle_from_armed (run initState [Event.toggle, Event.calibDone 0]) (by decide)⟩

/-- Claim C4: in an armed session, an `UnknownValueError` outcome leaves
`is_recording` and the listener handle unchanged and writes the empty string
to the clipboard. -/
theorem C4_unknown_value_keeps_armed (s : RecState) (r : Nat) (h : s.is_recording = true) :
    (process_audio s RecogResult.unknownValueError r).is_recording = s.is_recording ∧
    (process_audio s RecogResult.unknownValueError r).stop_listening = s.stop_listening ∧
    (process_audio s RecogResult.unknownValueError r).clipboardWrites =
      s.clipboardWrites ++ [""] := by
  simp [process_audio, emit, set_clipboard_text]

/-- Witness for C4 at a concrete armed state. -/
theorem C4_witness :
    (run initState [Event.toggle, Event.calibDone 0]).is_recording = true ∧
    ((process_audio (run initState [Event.toggle, Event.calibDone 0])
        RecogResult.unknownValueError 0).is_recording =
        (run initState [Event.toggle, Event.calibDone 0]).is_recording ∧
      (process_audio (run initState [Event.toggle, Event.calibDone 0])
        RecogResult.unknownValueError 0).stop_listening =
        (run initState [Event.toggle, Event.calibDone 0]).stop_listening ∧
      (process_audio (run initState [Event.toggle, Event.calibDone 0])
        RecogResult.unknownValueError 0).clipboardWrites =
        (run initState [Event.toggle, Event.calibDone 0]).clipboardWrites ++ [""]) :=
  ⟨by decide,
   C4_unknown_value_keeps_armed (run initState [Event.toggle, Event.calibDone 0]) 0 (by decide)⟩

/-- Claim C9: in an armed session, a `RequestError` outcome leaves the
accumulated recognized text and the clipboard-write log unchanged, and the
only produced effect is the connection-error tooltip. -/
theorem C9_request_error_frame (s : RecState) (r : Nat) (e : String)
    (h : s.is_recording = true) :
    (process_audio s (RecogResult.requestError e) r).recognized_text = s.recognized_text ∧
    (process_audio s (RecogResult.requestError e) r).clipboardWrites = s.clipboardWrites ∧
    (process_audio s (RecogResult.requestError e) r).effects =
      s.effects ++
        [⟨EffectKind.tooltip REQUEST_ERROR_MSG 3000, Thread.listenerThread, Dispatch.direct⟩] := by
  simp [process_audio, emit]

/-- Witness for C9 at a concrete armed state. -/
theorem C9_witness :
    (run initState [Event.toggle, Event.calibDone 0]).is_recording = true ∧
    ((process_audio (run initState [Event.toggle, Event.calibDone 0])
        (RecogResult.requestError ("recognition request failed")) 0).recognized_text =
        (run initState [Event.toggle, Event.calibDone 0]).recognized_text ∧
      (process_audio (run initState [Event.toggle, Event.calibDone 0])
        (RecogResult.requestError ("recognition request failed")) 0).clipboardWrites =
        (run initState [Event.toggle, Event.calibDone 0]).clipboardWrites ∧
      (process_audio (run initState [Event.toggle, Event.calibDone 0])
        (RecogResult.requestError ("recognition request failed")) 0).effects =
        (run initState [Event.toggle, Event.calibDone 0]).effects ++
          [⟨EffectKind.tooltip REQUEST_ERROR_MSG 3000, Thread.listenerThread,
            Dispatch.direct⟩]) :=
  ⟨by decide,
   C9_request_error_frame (run initState [Event.toggle, Event.calibDone 0]) 0
     ("recognition request failed") (by decide)⟩

/-- Claim C10: `get_resource_path` never reaches its exception handler and
returns the join of the base path (`_MEIPASS` when present, else the script
directory) with the relative path. -/
theorem C10_resource_path_total (meipass : Option String) (script_dir relative_path : String) :
    (try_get_resource_path meipass script_dir relative_path).isOk = true ∧
    get_resource_path meipass script_dir relative_path =
      ospath_join (meipass.getD script_dir) relative_path := by
  simp [try_get_resource_path, get_resource_path, Except.isOk, Except.toBool]

/-- Geometry refuting claim C7: a 300 pixel wide tooltip over a button near
the right edge of a 1920 by 1080 screen. -/
def C7geom : TooltipGeom :=
  ⟨300, 50, 1900, 500, 0, 0, 0, 0, 100, 1920, 1080⟩

/-- Counterexample to claim C7: the tooltip fits on the screen, yet the
computed position pushes it past the right screen edge, because the source
never clamps against `screen_width` (or `screen_height`). -/
theorem C7_counterexample :
    C7geom.tooltip_width ≤ C7geom.screen_width ∧
    position_tooltip C7geom = (1800, 445) ∧
    C7geom.screen_width < (position_tooltip C7geom).1 + C7geom.tooltip_width := by
  decide

/-- Claim C7 (amended): the tooltip is placed 5 pixels above the button and
horizontally centered over it, but the only clamping is a lower bound of 10 on
each coordinate; the right and bottom screen edges are never checked, so the
result is independent of the screen size. -/
theorem C7_amended_lower_clamp_only (g : TooltipGeom) :
    (position_tooltip g).1 =
      max 10 (g.root_x + g.frame_x + g.btn_x +
        Int.fdiv g.button_width 2 - Int.fdiv g.tooltip_width 2) ∧
    (position_tooltip g).2 =
      max 10 (g.root_y + g.frame_y + g.btn_y - g.tooltip_height - 5) ∧
    10 ≤ (position_tooltip g).1 ∧ 10 ≤ (position_tooltip g).2 := by
  simp only [position_tooltip]
  refine ⟨?_, ?_, ?_, ?_⟩ <;> split <;> omega

/-- Claim C8: if loading either icon asset fails, `_load_icons` returns the
generated fallback pair, whose two icons are non-null painted circles (green
for the microphone, red for stop). -/
theorem C8_fallback_on_load_failure (listen_result stop_result : Except String LoadedImage)
    (h : listen_result.isOk = false ∨ stop_result.isOk = false) :
    load_icons listen_result stop_result = IconSet.generated create_fallback_icons ∧
    create_fallback_icons.1.pixel 50 50 = some Color.green ∧
    create_fallback_icons.2.pixel 50 50 = some Color.red := by
  refine ⟨?_, by decide, by decide⟩
  cases listen_result with
  | error e => cases stop_result <;> rfl
  | ok m =>
      cases stop_result with
      | error e => rfl
      | ok s => simp [Except.isOk, Except.toBool] at h

/-- Witness for C8 with both asset loads failing. -/
theorem C8_witness :
    ((Except.error ("missing mia_listen.png") : Except String LoadedImage).isOk = false ∨
      (Except.error ("missing mia_stop.png") : Except String LoadedImage).isOk = false) ∧
    (load_icons (Except.error ("missing mia_listen.png"))
        (Except.error ("missing mia_stop.png")) = IconSet.generated create_fallback_icons ∧
      create_fallback_icons.1.pixel 50 50 = some Color.green ∧
      create_fallback_icons.2.pixel 50 50 = some Color.red) :=
  ⟨Or.inl rfl,
   C8_fallback_on_load_failure (Except.error ("missing mia_listen.png"))
     (Except.error ("missing mia_stop.png")) (Or.inl rfl)⟩

/-- Counterexample to claim C3: after arming and the recognizer returning
"hola mundo", the clipboard write is the bare text without the trailing
space, not "hola mundo " as claimed; the trailing space goes only to
`recognized_text`. -/
theorem C3_counterexample :
    (run initState [Event.toggle, Event.calibDone 0,
        Event.audio (RecogResult.text HOLA_MUNDO) 0]).clipboardWrites.getLast? ≠
      some HOLA_MUNDO_SPACE ∧
    (run initState [Event.toggle, Event.calibDone 0,
        Event.audio (RecogResult.text HOLA_MUNDO) 0]).clipboardWrites.getLast? =
      some HOLA_MUNDO ∧
    (run initState [Event.toggle, Event.calibDone 0,
        Event.audio (RecogResult.text HOLA_MUNDO) 0]).recognized_text = HOLA_MUNDO_SPACE := by
  decide

/-- Claim C3 (amended): for an armed session, a successful recognition of
"hola mundo" writes the bare "hola mundo" (no trailing space) to the
clipboard, appends "hola mundo " to the recognized text, emits an
acknowledgment tooltip, and disarms the session. -/
theorem C3_amended_success (s : RecState) (r : Nat) (h : s.is_recording = true) :
    (process_audio s (RecogResult.text HOLA_MUNDO) r).clipboardWrites =
      s.clipboardWrites ++ [HOLA_MUNDO] ∧
    (process_audio s (RecogResult.text HOLA_MUNDO) r).recognized_text =
      s.recognized_text ++ HOLA_MUNDO_SPACE ∧
    (process_audio s (RecogResult.text HOLA_MUNDO) r).is_recording = false ∧
    (process_audio s (RecogResult.text HOLA_MUNDO) r).stop_listening = none ∧
    (∃ m, m ∈ ACKNOWLEDGMENT_MESSAGES ∧
      (⟨EffectKind.tooltip m 1500, Thread.listenerThread, Dispatch.direct⟩ : UIEffect) ∈
        (process_audio s (RecogResult.text HOLA_MUNDO) r).effects) := by
  rw [process_audio_success s HOLA_MUNDO r (by decide)]
  refine ⟨rfl, ?_, rfl, rfl, ?_⟩
  · rw [String.append_assoc]
    rfl
  · refine ⟨get_random_message ACKNOWLEDGMENT_MESSAGES r,
      get_random_message_mem ACKNOWLEDGMENT_MESSAGES r (by simp [ACKNOWLEDGMENT_MESSAGES]), ?_⟩
    simp

/-- Witness for C3 (amended) at a concrete armed state. -/
theorem C3_amended_witness :
    (run initState [Event.toggle, Event.calibDone 0]).is_recording = true ∧
    ((process_audio (run initState [Event.toggle, Event.calibDone 0])
        (RecogResult.text HOLA_MUNDO) 0).clipboardWrites =
        (run initState [Event.toggle, Event.calibDone 0]).clipboardWrites ++ [HOLA_MUNDO] ∧
      (process_audio (run initState [Event.toggle, Event.calibDone 0])
        (RecogResult.text HOLA_MUNDO) 0).recognized_text =
        (run initState [Event.toggle, Event.calibDone 0]).recognized_text ++
          HOLA_MUNDO_SPACE ∧
      (process_audio (run initState [Event.toggle, Event.calibDone 0])
        (RecogResult.text HOLA_MUNDO) 0).is_recording = false ∧
      (process_audio (run initState [Event.toggle, Event.calibDone 0])
        (RecogResult.text HOLA_MUNDO) 0).stop_listening = none ∧
      (∃ m, m ∈ ACKNOWLEDGMENT_MESSAGES ∧
        (⟨EffectKind.tooltip m 1500, Thread.listenerThread, Dispatch.direct⟩ : UIEffect) ∈
          (process_audio (run initState [Event.toggle, Event.calibDone 0])
            (RecogResult.text HOLA_MUNDO) 0).effects)) :=
  ⟨by decide,
   C3_amended_success (run initState [Event.toggle, Event.calibDone 0]) 0 (by decide)⟩


/-- The singleton or empty list of listeners a handle accounts for. -/
def optToList : Option Nat → List Nat
  | some l => [l]
  | none => []

/-- Invariant tying the listener handle to the set of live listeners under
the calibration discipline: the live listeners are exactly the ones the
handle points to, a pending calibration means no handle has been assigned
yet, an idle session holds neither handle nor pending calibration, and at
most one calibration thread is pending. -/
def ListenerInv (s : RecState) : Prop :=
  s.liveListeners = optToList s.stop_listening ∧
  (0 < s.pendingCalib → s.stop_listening = none) ∧
  (s.is_recording = false → s.stop_listening = none ∧ s.pendingCalib = 0) ∧
  s.pendingCalib ≤ 1

/-- The initial state satisfies the listener invariant. -/
theorem initState_listener_inv : ListenerInv initState := by
  refine ⟨rfl, ?_, ?_, ?_⟩ <;> simp [initState, optToList]

/-- One step preserves the listener invariant, provided a toggle is only
taken while no calibration thread is pending. -/
theorem step_preserves_listener_inv (s : RecState) (e : Event)
    (hI : ListenerInv s) (hS : safeEvent s e = true) : ListenerInv (step s e) := by
  obtain ⟨h1, h2, h3, h4⟩ := hI
  cases e with
  | toggle =>
      have hp : s.pendingCalib = 0 := by
        simpa [safeEvent] using hS
      cases hr : s.is_recording with
      | false =>
          obtain ⟨hsl, -⟩ := h3 hr
          rw [hsl] at h1
          simp only [step, toggle_recording, hr, Bool.false_eq_true, if_false,
            start_recording_eq]
          exact ⟨by simpa [optToList, hsl] using h1, fun _ => hsl, by simp, by simp [hp]⟩
      | true =>
          cases hsl : s.stop_listening with
          | none =>
              rw [hsl] at h1
              simp only [step, toggle_recording, hr, if_true,
                stop_recording_none_eq s Thread.uiThread hsl]
              exact ⟨by simpa [optToList, hsl] using h1, fun hc => hsl, fun _ => ⟨hsl, hp⟩,
                by simp [hp]⟩
          | some l =>
              rw [hsl] at h1
              simp only [step, toggle_recording, hr, if_true,
                stop_recording_some_eq s Thread.uiThread l hsl]
              refine ⟨?_, fun hc => rfl, fun _ => ⟨rfl, hp⟩, by simp [hp]⟩
              simp [h1, optToList]
  | calibDone r =>
      by_cases hpc : 0 < s.pendingCalib
      · have hsl : s.stop_listening = none := h2 hpc
        rw [hsl] at h1
        simp only [step, hpc, if_true, calibrate_and_start_eq]
        have hrec : s.is_recording = true := by
          cases hrec : s.is_recording with
          | false => exact absurd (h3 hrec).2 (by omega)
          | true => rfl
        refine ⟨by simpa [optToList] using h1, ?_, ?_, by simp; omega⟩
        · intro hc
          exact absurd hc (by simp; omega)
        · intro hc
          rw [hrec] at hc
          exact absurd hc (by simp)
      · simp only [step, hpc, if_false]
        exact ⟨h1, h2, h3, h4⟩
  | audio res r =>
      by_cases hlive : s.liveListeners = []
      · simp only [step, hlive, if_true]
        exact ⟨h1, h2, h3, h4⟩
      · obtain ⟨l, hsl⟩ : ∃ l, s.stop_listening = some l := by
          cases hsl : s.stop_listening with
          | none => rw [hsl] at h1; exact absurd h1 (by simpa [optToList] using hlive)
          | some l => exact ⟨l, rfl⟩
        rw [hsl] at h1
        have hpc : s.pendingCalib = 0 := by
          by_contra hc
          have := h2 (Nat.pos_of_ne_zero hc)
          rw [this] at hsl
          exact absurd hsl (by simp)
        simp only [step, hlive, if_false]
        cases res with
        | text t =>
            by_cases ht : t = ""
            · simp only [process_audio, ht, if_true]
              exact ⟨by rw [hsl]; exact h1, h2, h3, h4⟩
            · rw [process_audio_success s t r ht]
              refine ⟨?_, by simp [hpc], fun _ => ⟨rfl, by simpa using hpc⟩, by simpa using h4⟩
              simp only [hsl, h1, optToList]
              simp
        | unknownValueError =>
            rw [process_audio_unknown_eq]
            exact ⟨by rw [hsl]; exact h1, h2, h3, h4⟩
        | requestError e =>
            rw [process_audio_request_error_eq]
            exact ⟨by rw [hsl]; exact h1, h2, h3, h4⟩

/-- Running any event sequence that respects the calibration discipline
preserves the listener invariant. -/
theorem run_preserves_listener_inv (evs : List Event) :
    ∀ s : RecState, ListenerInv s → safeEvents s evs = true → ListenerInv (run s evs) := by
  induction evs with
  | nil =>
      intro s h _
      simpa [run] using h
  | cons e es ih =>
      intro s hI hS
      simp only [safeEvents, Bool.and_eq_true] at hS
      have hstep := step_preserves_listener_inv s e hI hS.1
      have hrw : run s (e :: es) = run (step s e) es := by
        simp [run]
      rw [hrw]
      exact ih (step s e) hstep hS.2

/-- Counterexample to claim C1: toggling on, toggling off before the
calibration thread assigns the listener handle, and toggling on again leaves
two live background listeners once both calibration threads complete — the
first listener is orphaned because `_stop_recording` saw a `None` handle. -/
theorem C1_counterexample :
    (run initState [Event.toggle, Event.toggle, Event.calibDone 0, Event.toggle,
        Event.calibDone 0]).liveListeners.length = 2 ∧
    (run initState [Event.toggle, Event.toggle, Event.calibDone 0, Event.toggle,
        Event.calibDone 0]).cancellations = [] := by
  decide

/-- Claim C1 (amended): at most one background listener is live in any state
reachable by toggles, calibration completions and audio callbacks, provided
every toggle happens while no calibration thread is pending (that is, the
race in which disarm precedes the handle assignment is excluded). -/
theorem C1_amended_single_listener (evs : List Event)
    (h : safeEvents initState evs = true) :
    (run initState evs).liveListeners.length ≤ 1 := by
  obtain ⟨h1, -, -, -⟩ := run_preserves_listener_inv evs initState initState_listener_inv h
  rw [h1]
  cases (run initState evs).stop_listening <;> simp [optToList]

/-- Witness for C1 (amended) on a concrete disciplined toggle sequence. -/
theorem C1_amended_witness :
    safeEvents initState [Event.toggle, Event.calibDone 0, Event.toggle] = true ∧
    (run initState [Event.toggle, Event.calibDone 0, Event.toggle]).liveListeners.length ≤ 1 :=
  ⟨by decide,
   C1_amended_single_listener [Event.toggle, Event.calibDone 0, Event.toggle] (by decide)⟩

/-- Dispatch discipline actually followed by the source: effects produced on
the calibration thread are deferred through `root.after`, while effects
produced on the listener callback thread are direct widget calls. -/
def dispatchPolicy (ef : UIEffect) : Prop :=
  (ef.source = Thread.calibThread → ef.dispatch = Dispatch.deferred) ∧
  (ef.source = Thread.listenerThread → ef.dispatch = Dispatch.direct)

/-- One step only appends effects satisfying the dispatch discipline. -/
theorem step_effects_policy (s : RecState) (e : Event)
    (h : ∀ ef ∈ s.effects, dispatchPolicy ef) :
    ∀ ef ∈ (step s e).effects, dispatchPolicy ef := by
  intro ef hef
  cases e with
  | toggle =>
      cases hr : s.is_recording with
      | false =>
          rw [step, toggle_recording, hr] at hef
          simp only [Bool.false_eq_true, if_false, start_recording_eq, List.mem_append,
            List.mem_singleton] at hef
          rcases hef with hold | hnew
          · exact h ef hold
          · rw [hnew]
            exact ⟨by simp [dispatchPolicy], by simp⟩
      | true =>
          cases hsl : s.stop_listening with
          | none =>
              rw [step, toggle_recording, hr, if_pos rfl,
                stop_recording_none_eq s Thread.uiThread hsl] at hef
              simp only [List.mem_append, List.mem_singleton] at hef
              rcases hef with hold | hnew
              · exact h ef hold
              · rw [hnew]
                exact ⟨by simp, by simp⟩
          | some l =>
              rw [step, toggle_recording, hr, if_pos rfl,
                stop_recording_some_eq s Thread.uiThread l hsl] at hef
              simp only [List.mem_append, List.mem_singleton] at hef
              rcases hef with hold | hnew
              · exact h ef hold
              · rw [hnew]
                exact ⟨by simp, by simp⟩
  | calibDone r =>
      by_cases hpc : 0 < s.pendingCalib
      · rw [step, if_pos hpc, calibrate_and_start_eq] at hef
        simp only [List.mem_append, List.mem_singleton] at hef
        rcases hef with hold | hnew
        · exact h ef hold
        · rw [hnew]
          exact ⟨fun _ => rfl, by simp⟩
      · rw [step, if_neg hpc] at hef
        exact h ef hef
  | audio res r =>
      by_cases hlive : s.liveListeners = []
      · rw [step, if_pos hlive] at hef
        exact h ef hef
      · rw [step, if_neg hlive] at hef
        cases res with
        | text t =>
            by_cases ht : t = ""
            · rw [process_audio, if_pos ht] at hef
              exact h ef hef
            · rw [process_audio_success s t r ht] at hef
              simp only [List.mem_append, List.mem_cons, List.mem_singleton,
                List.not_mem_nil, or_false] at hef
              rcases hef with hold | hnew | hnew
              · exact h ef hold
              · rw [hnew]
                exact ⟨by simp, fun _ => rfl⟩
              · rw [hnew]
                exact ⟨by simp, fun _ => rfl⟩
        | unknownValueError =>
            rw [process_audio_unknown_eq] at hef
            simp only [List.mem_append, List.mem_singleton] at hef
            rcases hef with hold | hnew
            · exact h ef hold
            · rw [hnew]
              exact ⟨by simp, fun _ => rfl⟩
        | requestError e =>
            rw [process_audio_request_error_eq] at hef
            simp only [List.mem_append, List.mem_singleton] at hef
            rcases hef with hold | hnew
            · exact h ef hold
            · rw [hnew]
              exact ⟨by simp, fun _ => rfl⟩

/-- Every effect logged during a run satisfies the dispatch discipline. -/
theorem run_effects_policy (evs : List Event) :
    ∀ s : RecState, (∀ ef ∈ s.effects, dispatchPolicy ef) →
      ∀ ef ∈ (run s evs).effects, dispatchPolicy ef := by
  induction evs with
  | nil =>
      intro s h
      simpa [run] using h
  | cons e es ih =>
      intro s h ef hef
      have hrw : run s (e :: es) = run (step s e) es := by
        simp [run]
      rw [hrw] at hef
      exact ih (step s e) (step_effects_policy s e h) ef hef

/-- Counterexample to claim C2: on the success path, `_process_audio` shows
the acknowledgment tooltip and swaps the button icon directly on the
background listener thread, without going through `root.after`. -/
theorem C2_counterexample :
    ∃ ef ∈ (run initState [Event.toggle, Event.calibDone 0,
        Event.audio (RecogResult.text HOLA_MUNDO) 0]).effects,
      ef.source = Thread.listenerThread ∧ ef.dispatch = Dispatch.direct := by
  decide

/-- Claim C2 (amended): in every reachable state, the greeting tooltip
produced on the calibration thread is indeed deferred onto the UI task queue
via `root.after`, but every effect produced on the background listener thread
(the acknowledgment, retry and connection tooltips, and the icon swap done by
`_stop_recording` inside `_process_audio`) is a direct widget mutation. -/
theorem C2_amended_dispatch (evs : List Event) (ef : UIEffect)
    (hef : ef ∈ (run initState evs).effects) : dispatchPolicy ef := by
  exact run_effects_policy evs initState (by simp [initState]) ef hef

/-- Witness for C2 (amended) on the deferred greeting tooltip of a concrete
run. -/
theorem C2_amended_witness :
    (⟨EffectKind.tooltip (get_random_message GREETING_MESSAGES 0) 1500, Thread.calibThread,
        Dispatch.deferred⟩ : UIEffect) ∈
      (run initState [Event.toggle, Event.calibDone 0]).effects ∧
    dispatchPolicy ⟨EffectKind.tooltip (get_random_message GREETING_MESSAGES 0) 1500,
      Thread.calibThread, Dispatch.deferred⟩ :=
  ⟨by decide, C2_amended_dispatch [Event.toggle, Event.calibDone 0] _ (by decide)⟩
